import Mathlib

/-
Shallow embedding of the Dynamic-Company-Chatbot pipeline
(app.py, external_info_retriever.py, llm_rag_service.py).

External collaborators (Google Custom Search, the Gemini embedding /
completion capability, json.loads) are modelled as explicit function
parameters ("capability oracles") returning `Except`, so a raised fault
in the Python code corresponds to an `.error` result of the oracle.
Each embedded function additionally returns a trace recording which
capabilities were invoked, so claims about call counts and about what
data each capability ever sees can be stated and proved.
-/

namespace DCC

/-- Python truthiness of an optional string: `None` and `""` are falsy,
every other string is truthy (used for `if not GOOGLE_CSE_ID`,
`elif company_name and service_keywords:` and so on). -/
def truthy : Option String → Bool
  | none => false
  | some s => !s.isEmpty

/-- Metadata attached to a retrieved document, mirroring the `metadata`
dict built in `external_info_retriever.get_company_web_content`. -/
structure DocMetadata where
  source : String
  title : String
  company : String
  search_query : String
deriving DecidableEq, Repr

/-- A LangChain `Document` as produced by the retriever: snippet text
plus metadata. -/
structure Document where
  page_content : String
  metadata : DocMetadata
deriving DecidableEq, Repr

/-- One item of the Custom Search provider response: each of `title`,
`snippet`, `link` may be absent from the item dict (modelled by
`Option`, read in the source via `item.get(key, placeholder)`). -/
structure SearchItem where
  title : Option String
  snippet : Option String
  link : Option String
deriving DecidableEq, Repr

/-- A search request as issued by
`service.cse().list(q=search_query, cx=GOOGLE_CSE_ID, num=5)`. -/
structure SearchRequest where
  q : String
  cx : String
  num : Nat
deriving DecidableEq, Repr

/-- The module-level configuration of `external_info_retriever.py`:
`GOOGLE_CSE_ID` and `GOOGLE_API_KEY_FOR_SEARCH`, each possibly unset. -/
structure SearchConfig where
  cse_id : Option String
  api_key_for_search : Option String

/-- The search provider capability: takes the request, returns either a
fault (`HttpError` or any other exception), or a response in which the
`items` key may be absent (`none`) or hold a list of items. -/
def SearchProvider : Type :=
  SearchRequest → Except String (Option (List SearchItem))

/-- The query string built by `get_company_web_content`:
`f"{company_name} {service_keywords} services reviews official site"`. -/
def searchQueryFor (company_name service_keywords : String) : String :=
  company_name ++ " " ++ service_keywords ++ " services reviews official site"

/-- One provider item mapped to a `Document`, as in the loop body of
`get_company_web_content`: missing fields fall back to the literal
placeholders used by `item.get(..., default)`. -/
def itemToDocument (company_name search_query : String) (item : SearchItem) : Document :=
  { page_content := item.snippet.getD "No Snippet"
    metadata :=
      { source := item.link.getD "No Link"
        title := item.title.getD "No Title"
        company := company_name
        search_query := search_query } }

/-- Embedding of `external_info_retriever.get_company_web_content`.
Returns the produced document list together with the list of search
requests actually issued to the provider. The credentials guard, the
single `cse().list(...)` call with `num=5`, the `if 'items' in response`
branch, the per-item mapping, and the two `except` handlers returning
`[]` are all reflected. -/
def get_company_web_content (cfg : SearchConfig) (provider : SearchProvider)
    (company_name service_keywords : String) :
    List Document × List SearchRequest :=
  if (truthy cfg.cse_id && truthy cfg.api_key_for_search) = false then
    ([], [])
  else
    let search_query := searchQueryFor company_name service_keywords
    let req : SearchRequest := ⟨search_query, cfg.cse_id.getD "", 5⟩
    match provider req with
    | .error _ => ([], [req])
    | .ok none => ([], [req])
    | .ok (some items) => (items.map (itemToDocument company_name search_query), [req])

/-- A conversation message, mirroring LangChain `HumanMessage` /
`AIMessage` as built by `get_langchain_chat_history` in app.py. -/
inductive ChatMessage where
  | human (content : String)
  | ai (content : String)
deriving DecidableEq, Repr

/-- Module-level configuration of `llm_rag_service.py`:
`GOOGLE_API_KEY`, possibly unset. -/
structure RagConfig where
  google_api_key : Option String

/-- The completion request assembled by the retrieval chain:
the top-k retrieved documents (the `{context}` of the qa_prompt),
the `chat_history` placeholder content, and the `{input}` question. -/
structure CompletionRequest where
  context : List Document
  chat_history : List ChatMessage
  input : String

/-- The embedding / completion capabilities used by `get_rag_answer`:
`embedDocs` is the batch document-embedding call made by
`Chroma.from_documents`, `embedQuery` the question embedding made when
the retriever runs, `complete` the final LLM call; `.ok none` for
`complete` models a response dict without an "answer" key
(`response.get("answer", fallback)`). -/
structure Caps where
  embedDocs : List String → Except String (List (List Int))
  embedQuery : String → Except String (List Int)
  complete : CompletionRequest → Except String (Option String)

/-- Squared L2 distance between two embedding vectors, the similarity
measure of the in-memory Chroma store (smaller distance = more similar). -/
def sqDist (u v : List Int) : Int :=
  (List.zipWith (fun a b => (a - b) * (a - b)) u v).sum

/-- Stable insertion of one (document, vector) pair into a list sorted
by ascending distance to the query vector: on ties the existing entry
keeps its earlier position (insertion order breaks ties). -/
def insertByDist (qv : List Int) (p : Document × List Int) :
    List (Document × List Int) → List (Document × List Int)
  | [] => [p]
  | b :: rest =>
      if sqDist qv p.2 < sqDist qv b.2 then p :: b :: rest
      else b :: insertByDist qv p rest

/-- Stable sort of the index entries by ascending distance to the query
vector (insertion sort, stable on ties). -/
def sortByDist (qv : List Int) : List (Document × List Int) → List (Document × List Int)
  | [] => []
  | p :: rest => insertByDist qv p (sortByDist qv rest)

/-- Top-k similarity retrieval over the ephemeral index
(`vectorstore.as_retriever(search_kwargs={"k": 3})` queried with the
embedded question): the k nearest documents by ascending distance,
ties broken by insertion order. -/
def selectTopK (k : Nat) (qv : List Int) (index : List (Document × List Int)) :
    List Document :=
  ((sortByDist qv index).take k).map Prod.fst

/-- Trace of one `get_rag_answer` call: how many embedding-capability
calls and completion-capability calls were made, which documents the
ephemeral index was built from (if it was built) and which documents
the retriever handed to the completion prompt (if retrieval ran). -/
structure RagTrace where
  embedCalls : Nat
  completeCalls : Nat
  indexDocs : Option (List Document)
  retrieved : Option (List Document)
deriving DecidableEq, Repr

/-- Fallback string returned by `get_rag_answer` when `GOOGLE_API_KEY`
is unset. -/
def notConfiguredMsg : String :=
  "I'm sorry, my core AI capabilities are not configured. Please check the API key."

/-- Fallback string returned by `get_rag_answer` when
`external_documents` is empty. -/
def noDocsMsg : String :=
  "I couldn't find enough relevant information on the web to answer that specific query. Please try rephrasing or asking about a different company/service."

/-- Fallback string returned by the `except Exception` handler of
`get_rag_answer`. -/
def internalErrorMsg : String :=
  "I'm sorry, I encountered an internal error while trying to process your request."

/-- Fallback string used when the chain response has no "answer" key. -/
def noAnswerMsg : String :=
  "I couldn't generate an answer based on the retrieved information."

/-- The answer string obtained from the completion call, as in the
source: a fault lands in the `except` handler (`internalErrorMsg`), a
response without an "answer" key gives the
`response.get("answer", ...)` default, otherwise the answer text. -/
def answerFromResponse (r : Except String (Option String)) : String :=
  match r with
  | .error _ => internalErrorMsg
  | .ok none => noAnswerMsg
  | .ok (some answer) => answer

/-- Embedding of `llm_rag_service.get_rag_answer`. In order, as in the
source: the `GOOGLE_API_KEY` guard, the empty-documents guard, then the
try block: batch-embed the documents and build the in-memory store from
exactly `external_documents` (`Chroma.from_documents`), embed the
question and retrieve the top 3 by similarity, and make the single
completion call whose prompt holds the retrieved context, the full
`chat_history` and the question. Every fault from a capability lands in
the `except` handler, i.e. yields `internalErrorMsg`; the function is
total, so no exception ever propagates. The trace records capability
call counts, the index contents and the retrieved documents. -/
def get_rag_answer (cfg : RagConfig) (caps : Caps) (user_question : String)
    (external_documents : List Document) (chat_history : List ChatMessage) :
    String × RagTrace :=
  if truthy cfg.google_api_key = false then
    (notConfiguredMsg, ⟨0, 0, none, none⟩)
  else if external_documents.isEmpty = true then
    (noDocsMsg, ⟨0, 0, none, none⟩)
  else
    match caps.embedDocs (external_documents.map Document.page_content) with
    | .error _ => (internalErrorMsg, ⟨1, 0, none, none⟩)
    | .ok vecs =>
      let index := external_documents.zip vecs
      match caps.embedQuery user_question with
      | .error _ => (internalErrorMsg, ⟨2, 0, some external_documents, none⟩)
      | .ok qv =>
        let sel := selectTopK 3 qv index
        (answerFromResponse (caps.complete ⟨sel, chat_history, user_question⟩),
         ⟨2, 1, some external_documents, some sel⟩)

/-- The fault condition of the try block of `get_rag_answer`: the first
capability reached along the control path returns a fault — either the
document-embedding call fails, or it succeeds and the query embedding
fails, or both succeed and the completion call fails. -/
def ragStepFaults (caps : Caps) (user_question : String)
    (external_documents : List Document) (chat_history : List ChatMessage) : Prop :=
  (∃ e, caps.embedDocs (external_documents.map Document.page_content) = .error e) ∨
  (∃ vecs, caps.embedDocs (external_documents.map Document.page_content) = .ok vecs ∧
    ((∃ e, caps.embedQuery user_question = .error e) ∨
     (∃ qv, caps.embedQuery user_question = .ok qv ∧
       ∃ e, caps.complete
         ⟨selectTopK 3 qv (external_documents.zip vecs), chat_history, user_question⟩
           = .error e)))

/-- Trace of one `extract_query_entities` call: how many times the
extraction chain (the completion capability) was invoked and how many
`st.warning` / `st.error` surfacings occurred. -/
structure ExtractTrace where
  chainCalls : Nat
  warnings : Nat
  errors : Nat
deriving DecidableEq, Repr

/-- The cleanup applied to the raw completion text before JSON decoding:
`json_str.strip().replace("```json\n", "").replace("\n```", "")`. -/
def stripFences (s : String) : String :=
  (s.trim.replace "```json\n" "").replace "\n```" ""

/-- Python `entities.get(key)` on the decoded JSON object, whose values
are strings or null: a missing key and a null value both give `none`. -/
def dictGet (entities : List (String × Option String)) (key : String) : Option String :=
  match entities.lookup key with
  | some v => v
  | none => none

/-- Embedding of `app.extract_query_entities`. `chain` is the
extraction completion capability (`extraction_chain.ainvoke`);
`jsonLoads` models `json.loads` on the cleaned string, its `.error`
being a `json.JSONDecodeError`. The source's handler order is
reflected: a fault of the chain call is caught by the generic
`except Exception` handler (`st.error`, result `(None, None)`); a
decode fault is caught by the `except json.JSONDecodeError` handler
(`st.warning`, result `(None, None)`); otherwise the two fields are
read with `.get`. The function is total: no exception propagates. -/
def extract_query_entities (chain : String → Except String String)
    (jsonLoads : String → Except String (List (String × Option String)))
    (query : String) :
    (Option String × Option String) × ExtractTrace :=
  match chain query with
  | .error _ => ((none, none), ⟨1, 0, 1⟩)
  | .ok json_str =>
    match jsonLoads (stripFences json_str) with
    | .error _ => ((none, none), ⟨1, 1, 0⟩)
    | .ok entities =>
      ((dictGet entities "company_name", dictGet entities "service_keywords"), ⟨1, 0, 0⟩)

/-- Fixed greeting reply of the orchestrator. -/
def greetingMsg : String :=
  "Hello there! How can I assist you with company services today?"

/-- Fixed chit-chat acknowledgement reply of the orchestrator. -/
def chitchatMsg : String :=
  "You're welcome! Is there anything specific about company services you'd like to know?"

/-- Fixed reply when retrieval finds no documents. -/
def noSpecificInfoMsg : String :=
  "I couldn't find specific information for that company and service on the web. Could you please rephrase or provide more details?"

/-- Fixed clarification prompt when only a company name was extracted
(an f-string mentioning the company). -/
def clarifyMsg (company_name : String) : String :=
  "I can look up information about " ++ company_name ++ ". What specific services or aspects are you interested in?"

/-- Fixed reply when neither a company nor a service was identified. -/
def couldntIdentifyMsg : String :=
  "I couldn't identify a specific company or service in your query. Please ask about a company's services (e.g., 'What are Google's cloud services?')."

/-- Embedding of the orchestrator branch of app.py (the if/elif chain
over the extraction result, lines 120-145): the two marker-string
short-circuits, the both-present RAG path calling
`get_company_web_content` and, when documents were found,
`get_rag_answer`, the company-only clarification, and the final
fallback. Conditions use Python truthiness (`truthy`). -/
def orchestrateReply (scfg : SearchConfig) (provider : SearchProvider)
    (rcfg : RagConfig) (caps : Caps) (userPrompt : String)
    (history : List ChatMessage)
    (company_name service_keywords : Option String) : String :=
  if company_name = some "GREETING" ∧ service_keywords = some "GREETING" then
    greetingMsg
  else if company_name = some "CHITCHAT" ∧ service_keywords = some "CHITCHAT" then
    chitchatMsg
  else if truthy company_name = true ∧ truthy service_keywords = true then
    let external_documents :=
      (get_company_web_content scfg provider
        (company_name.getD "") (service_keywords.getD "")).1
    if external_documents = [] then noSpecificInfoMsg
    else (get_rag_answer rcfg caps userPrompt external_documents history).1
  else if truthy company_name = true then
    clarifyMsg (company_name.getD "")
  else
    couldntIdentifyMsg

/-- A capability record all of whose calls fault; used for concrete
witnesses and counterexamples. -/
def capsFail : Caps :=
  { embedDocs := fun _ => .error "boom"
    embedQuery := fun _ => .error "boom"
    complete := fun _ => .error "boom" }

/-- A capability record all of whose calls succeed (constant
embeddings, a fixed answer); used for concrete witnesses. -/
def capsOk : Caps :=
  { embedDocs := fun texts => .ok (texts.map fun _ => [0])
    embedQuery := fun _ => .ok [0]
    complete := fun _ => .ok (some "ok-answer") }

/-- A search provider whose call always faults; used for witnesses. -/
def providerFail : SearchProvider := fun _ => .error "http-error"

/-- A fixed concrete document for witnesses. -/
def doc0 : Document :=
  { page_content := "Acme offers cloud services."
    metadata := { source := "u", title := "t", company := "Acme", search_query := "q" } }

/-- A search provider returning one item with every field missing;
used for witnesses. -/
def providerOne : SearchProvider := fun _ => .ok (some [⟨none, none, none⟩])

/-- An extraction chain whose completion call always faults. -/
def chainFail : String → Except String String := fun _ => .error "rpc-fault"

/-- An extraction chain returning a fixed non-JSON string. -/
def chainConst : String → Except String String := fun _ => .ok "not json"

/-- A JSON decoder that always reports a decode fault. -/
def jsonLoadsFail : String → Except String (List (String × Option String)) :=
  fun _ => .error "decode"

/-- Anything in the output of `insertByDist` is the inserted pair or
was already in the list. -/
theorem mem_insertByDist {qv : List Int} {p a : Document × List Int}
    {l : List (Document × List Int)} (h : a ∈ insertByDist qv p l) :
    a = p ∨ a ∈ l := by
  induction l with
  | nil =>
      simp only [insertByDist, List.mem_singleton] at h
      exact Or.inl h
  | cons b rest ih =>
      by_cases hlt : sqDist qv p.2 < sqDist qv b.2
      · simp only [insertByDist, if_pos hlt, List.mem_cons] at h
        rcases h with h | h
        · exact Or.inl h
        · exact Or.inr (List.mem_cons.mpr h)
      · simp only [insertByDist, if_neg hlt, List.mem_cons] at h
        rcases h with h | h
        · exact Or.inr (List.mem_cons.mpr (Or.inl h))
        · rcases ih h with h1 | h1
          · exact Or.inl h1
          · exact Or.inr (List.mem_cons.mpr (Or.inr h1))

/-- Sorting by distance does not invent documents. -/
theorem mem_sortByDist {qv : List Int} {a : Document × List Int}
    {l : List (Document × List Int)} (h : a ∈ sortByDist qv l) : a ∈ l := by
  induction l with
  | nil => simp [sortByDist] at h
  | cons p rest ih =>
      simp only [sortByDist] at h
      rcases mem_insertByDist h with h1 | h1
      · exact List.mem_cons.mpr (Or.inl h1)
      · exact List.mem_cons.mpr (Or.inr (ih h1))

/-- Every document selected by top-k retrieval is an entry of the
index it was selected from. -/
theorem mem_selectTopK {k : Nat} {qv : List Int} {d : Document}
    {index : List (Document × List Int)} (h : d ∈ selectTopK k qv index) :
    ∃ v, (d, v) ∈ index := by
  simp only [selectTopK, List.mem_map] at h
  obtain ⟨⟨pd, pv⟩, hp, rfl⟩ := h
  exact ⟨pv, mem_sortByDist (List.take_subset _ _ hp)⟩

/-- C2: every call to `get_company_web_content` with absent credentials,
or a provider fault, or a provider response with no items (missing
`items` key or an empty item list), returns the empty document list.
The embedded function is total, so no exception propagates to the
caller on any of these paths. -/
theorem retriever_degrades_to_empty (cfg : SearchConfig) (provider : SearchProvider)
    (company_name service_keywords : String)
    (h : (truthy cfg.cse_id && truthy cfg.api_key_for_search) = false ∨
         (∃ e, provider ⟨searchQueryFor company_name service_keywords, cfg.cse_id.getD "", 5⟩
            = .error e) ∨
         provider ⟨searchQueryFor company_name service_keywords, cfg.cse_id.getD "", 5⟩
            = .ok none ∨
         provider ⟨searchQueryFor company_name service_keywords, cfg.cse_id.getD "", 5⟩
            = .ok (some [])) :
    (get_company_web_content cfg provider company_name service_keywords).1 = [] := by
  by_cases hc : (truthy cfg.cse_id && truthy cfg.api_key_for_search) = false
  · simp [get_company_web_content, hc]
  · rcases h with h | ⟨e, he⟩ | he | he
    · exact absurd h hc
    · simp [get_company_web_content, hc, he]
    · simp [get_company_web_content, hc, he]
    · simp [get_company_web_content, hc, he]

/-- C2 witness: with both credentials unset, the retriever returns the
empty list. -/
theorem retriever_degrades_to_empty_witness :
    (get_company_web_content ⟨none, none⟩ providerFail "Acme" "cloud").1 = [] :=
  retriever_degrades_to_empty ⟨none, none⟩ providerFail "Acme" "cloud" (Or.inl rfl)

/-- C6: with credentials configured, `get_company_web_content` issues
exactly one search request, whose query string is
`"{company} {keywords} services reviews official site"` and which asks
for 5 (hence at most 5) results; and every item of a successful
provider response is mapped to one document whose content is the
item's snippet and whose metadata holds the item's link, title, the
company and the query string, with the literal placeholders
"No Title" / "No Snippet" / "No Link" substituted for missing fields. -/
theorem retriever_single_request_and_mapping (cfg : SearchConfig)
    (provider : SearchProvider) (company_name service_keywords : String)
    (hc : (truthy cfg.cse_id && truthy cfg.api_key_for_search) = true) :
    (get_company_web_content cfg provider company_name service_keywords).2
        = [⟨searchQueryFor company_name service_keywords, cfg.cse_id.getD "", 5⟩] ∧
    searchQueryFor company_name service_keywords
        = company_name ++ " " ++ service_keywords ++ " services reviews official site" ∧
    ∀ items,
      provider ⟨searchQueryFor company_name service_keywords, cfg.cse_id.getD "", 5⟩
          = .ok (some items) →
      (get_company_web_content cfg provider company_name service_keywords).1
        = items.map (fun item =>
            { page_content := item.snippet.getD "No Snippet"
              metadata :=
                { source := item.link.getD "No Link"
                  title := item.title.getD "No Title"
                  company := company_name
                  search_query := searchQueryFor company_name service_keywords } }) := by
  refine ⟨?_, rfl, ?_⟩
  · unfold get_company_web_content
    rw [if_neg (by simp [hc])]
    cases hp : provider ⟨searchQueryFor company_name service_keywords, cfg.cse_id.getD "", 5⟩ with
    | error e => simp [hp]
    | ok o => cases o <;> simp [hp]
  · intro items hi
    simp [get_company_web_content, hc, hi, itemToDocument]

/-- C6 witness: a concrete configured call issues the single expected
request and maps a field-less item to the three placeholders. -/
theorem retriever_single_request_and_mapping_witness :
    (get_company_web_content ⟨some "cx", some "key"⟩ providerOne "Acme" "cloud").2
        = [⟨searchQueryFor "Acme" "cloud", "cx", 5⟩] ∧
    (get_company_web_content ⟨some "cx", some "key"⟩ providerOne "Acme" "cloud").1
        = [{ page_content := "No Snippet"
             metadata := { source := "No Link", title := "No Title",
                           company := "Acme",
                           search_query := searchQueryFor "Acme" "cloud" } }] := by
  refine ⟨(retriever_single_request_and_mapping ⟨some "cx", some "key"⟩ providerOne
            "Acme" "cloud" (by decide)).1, ?_⟩
  have h := (retriever_single_request_and_mapping ⟨some "cx", some "key"⟩ providerOne
    "Acme" "cloud" (by decide)).2.2 [⟨none, none, none⟩] rfl
  simp only [List.map_cons, List.map_nil, Option.getD_none] at h
  exact h

/-- C9: the missing-configuration guard of `get_rag_answer` is checked
before the empty-documents guard: with the API key unconfigured, every
input — including an empty document sequence — yields the fixed
not-configured string, and an empty document sequence then does not
produce the no-relevant-information string. -/
theorem rag_config_guard_first (cfg : RagConfig) (caps : Caps)
    (user_question : String) (external_documents : List Document)
    (chat_history : List ChatMessage)
    (hk : truthy cfg.google_api_key = false) :
    (get_rag_answer cfg caps user_question external_documents chat_history).1
        = notConfiguredMsg ∧
    (get_rag_answer cfg caps user_question [] chat_history).1 ≠ noDocsMsg := by
  constructor
  · simp [get_rag_answer, hk]
  · simp only [get_rag_answer, hk, if_true]
    decide

/-- C9 witness: with the key unset, both a nonempty-document call and
an empty-document call hit the not-configured guard. -/
theorem rag_config_guard_first_witness :
    (get_rag_answer ⟨none⟩ capsOk "q" [doc0] []).1 = notConfiguredMsg ∧
    (get_rag_answer ⟨none⟩ capsOk "q" [] []).1 ≠ noDocsMsg :=
  ⟨(rag_config_guard_first ⟨none⟩ capsOk "q" [doc0] [] rfl).1,
   (rag_config_guard_first ⟨none⟩ capsOk "q" [doc0] [] rfl).2⟩

/-- C1 counterexample: a call to `get_rag_answer` with an empty
document sequence but an unconfigured API key does not return the
no-relevant-information fallback (it returns the not-configured
fallback instead), so the claim as stated fails. -/
theorem rag_empty_docs_cex :
    ¬ ((get_rag_answer ⟨none⟩ capsFail "hi" [] []).1 = noDocsMsg) := by
  decide

/-- C1 (amended): provided the API key is configured, every call to
`get_rag_answer` with an empty document sequence — any question, any
history — returns exactly the fixed no-relevant-information fallback
and invokes neither the embedding capability nor the completion
capability (zero capability calls in the trace). -/
theorem rag_empty_docs_fallback (cfg : RagConfig) (caps : Caps)
    (user_question : String) (chat_history : List ChatMessage)
    (hk : truthy cfg.google_api_key = true) :
    get_rag_answer cfg caps user_question [] chat_history
      = (noDocsMsg, ⟨0, 0, none, none⟩) := by
  simp [get_rag_answer, hk]

/-- C1 witness: a concrete configured call with no documents. -/
theorem rag_empty_docs_fallback_witness :
    get_rag_answer ⟨some "k"⟩ capsFail "hi" [] []
      = (noDocsMsg, ⟨0, 0, none, none⟩) :=
  rag_empty_docs_fallback ⟨some "k"⟩ capsFail "hi" [] rfl

/-- C3: whenever a capability reached inside the try block of
`get_rag_answer` faults — document embedding, query embedding during
retrieval, or the completion call — the fault is caught and the result
is exactly the fixed internal-error fallback string. The embedded
function is total, so `get_rag_answer` never propagates an exception
to its caller. -/
theorem rag_faults_internal_error (cfg : RagConfig) (caps : Caps)
    (user_question : String) (external_documents : List Document)
    (chat_history : List ChatMessage)
    (hk : truthy cfg.google_api_key = true)
    (hd : external_documents ≠ [])
    (hf : ragStepFaults caps user_question external_documents chat_history) :
    (get_rag_answer cfg caps user_question external_documents chat_history).1
      = internalErrorMsg := by
  have hde : external_documents.isEmpty = false := by
    cases external_documents with
    | nil => exact absurd rfl hd
    | cons a l => rfl
  rcases hf with ⟨e, he⟩ | ⟨vecs, hv, ⟨e, he⟩ | ⟨qv, hq, e, he⟩⟩
  · simp [get_rag_answer, hk, hde, he]
  · simp [get_rag_answer, hk, hde, hv, he]
  · simp [get_rag_answer, hk, hde, hv, hq, he, answerFromResponse]

/-- C3 witness: a configured call on one document with a faulting
embedding capability yields the internal-error fallback. -/
theorem rag_faults_internal_error_witness :
    (get_rag_answer ⟨some "k"⟩ capsFail "q" [doc0] []).1 = internalErrorMsg :=
  rag_faults_internal_error ⟨some "k"⟩ capsFail "q" [doc0] [] rfl
    (List.cons_ne_nil doc0 []) (Or.inl ⟨"boom", rfl⟩)

/-- C7: for two runs of `get_rag_answer` with the same question, the
same documents and the same capabilities but different conversation
histories, the documents selected by similarity retrieval are
identical — the history never influences which documents are
retrieved. -/
theorem rag_retrieval_history_independent (cfg : RagConfig) (caps : Caps)
    (user_question : String) (external_documents : List Document)
    (history1 history2 : List ChatMessage) :
    (get_rag_answer cfg caps user_question external_documents history1).2.retrieved
      = (get_rag_answer cfg caps user_question external_documents history2).2.retrieved := by
  by_cases hk : truthy cfg.google_api_key = false
  · simp [get_rag_answer, hk]
  · by_cases hd : external_documents.isEmpty = true
    · simp [get_rag_answer, hk, hd]
    · cases hv : caps.embedDocs (external_documents.map Document.page_content) with
      | error e => simp [get_rag_answer, hk, hd, hv]
      | ok vecs =>
        cases hq : caps.embedQuery user_question with
        | error e => simp [get_rag_answer, hk, hd, hv, hq]
        | ok qv => simp [get_rag_answer, hk, hd, hv, hq]

/-- C8: the ephemeral index of a `get_rag_answer` call is built from
exactly that call's document sequence (whenever the index is built,
its contents are that sequence and nothing else), and every document
the retriever selects belongs to that sequence — so the index never
holds a document from a prior turn; no index state flows between
calls, each call receiving only its own arguments. -/
theorem rag_index_fresh_per_turn (cfg : RagConfig) (caps : Caps)
    (user_question : String) (external_documents : List Document)
    (chat_history : List ChatMessage) :
    (∀ ds, (get_rag_answer cfg caps user_question external_documents chat_history).2.indexDocs
        = some ds → ds = external_documents) ∧
    (∀ sel, (get_rag_answer cfg caps user_question external_documents chat_history).2.retrieved
        = some sel → ∀ d ∈ sel, d ∈ external_documents) := by
  by_cases hk : truthy cfg.google_api_key = false
  · simp [get_rag_answer, hk]
  · by_cases hd : external_documents.isEmpty = true
    · simp [get_rag_answer, hk, hd]
    · cases hv : caps.embedDocs (external_documents.map Document.page_content) with
      | error e => simp [get_rag_answer, hk, hd, hv]
      | ok vecs =>
        cases hq : caps.embedQuery user_question with
        | error e =>
            simp [get_rag_answer, hk, hd, hv, hq]
        | ok qv =>
            constructor
            · intro ds hds
              simp [get_rag_answer, hk, hd, hv, hq] at hds
              exact hds.symm
            · intro sel hsel d hdm
              simp [get_rag_answer, hk, hd, hv, hq] at hsel
              rw [← hsel] at hdm
              obtain ⟨v, hv2⟩ := mem_selectTopK hdm
              exact (List.of_mem_zip hv2).1

/-- C8 witness: a concrete successful call; its index contents are the
call's own document list and its retrieved documents lie in it. -/
theorem rag_index_fresh_per_turn_witness :
    [doc0] = [doc0] ∧ doc0 ∈ [doc0] :=
  ⟨(rag_index_fresh_per_turn ⟨some "k"⟩ capsOk "q" [doc0] []).1 [doc0] rfl ▸ rfl,
   (rag_index_fresh_per_turn ⟨some "k"⟩ capsOk "q" [doc0] []).2 [doc0] rfl doc0
     (List.mem_singleton.mpr rfl)⟩

/-- C4: the orchestrator evaluates its transition policy in order:
both fields "GREETING" gives the fixed greeting reply; both "CHITCHAT"
gives the fixed acknowledgement; otherwise, both fields present
(truthy) triggers retrieval and the reply is the fixed
no-specific-information string when retrieval is empty and the
synthesizer's output otherwise; otherwise a present company alone
gives the fixed clarification prompt; and a non-truthy company gives
the fixed could-not-identify string. -/
theorem orchestrator_policy (scfg : SearchConfig) (provider : SearchProvider)
    (rcfg : RagConfig) (caps : Caps) (userPrompt : String)
    (history : List ChatMessage) (company_name service_keywords : Option String) :
    (company_name = some "GREETING" ∧ service_keywords = some "GREETING" →
      orchestrateReply scfg provider rcfg caps userPrompt history
        company_name service_keywords = greetingMsg) ∧
    (company_name = some "CHITCHAT" ∧ service_keywords = some "CHITCHAT" →
      orchestrateReply scfg provider rcfg caps userPrompt history
        company_name service_keywords = chitchatMsg) ∧
    (¬(company_name = some "GREETING" ∧ service_keywords = some "GREETING") →
     ¬(company_name = some "CHITCHAT" ∧ service_keywords = some "CHITCHAT") →
     truthy company_name = true → truthy service_keywords = true →
      orchestrateReply scfg provider rcfg caps userPrompt history
          company_name service_keywords
        = (if (get_company_web_content scfg provider
                (company_name.getD "") (service_keywords.getD "")).1 = []
           then noSpecificInfoMsg
           else (get_rag_answer rcfg caps userPrompt
                  (get_company_web_content scfg provider
                    (company_name.getD "") (service_keywords.getD "")).1
                  history).1)) ∧
    (¬(company_name = some "GREETING" ∧ service_keywords = some "GREETING") →
     ¬(company_name = some "CHITCHAT" ∧ service_keywords = some "CHITCHAT") →
     truthy company_name = true → truthy service_keywords = false →
      orchestrateReply scfg provider rcfg caps userPrompt history
        company_name service_keywords = clarifyMsg (company_name.getD "")) ∧
    (truthy company_name = false →
      orchestrateReply scfg provider rcfg caps userPrompt history
        company_name service_keywords = couldntIdentifyMsg) := by
  refine ⟨?_, ?_, ?_, ?_, ?_⟩
  · rintro ⟨rfl, rfl⟩
    rfl
  · rintro ⟨rfl, rfl⟩
    unfold orchestrateReply
    rw [if_neg (by rintro ⟨h, -⟩; exact Option.some.inj h |> fun hh => by simp at hh)]
    rfl
  · intro hg hc ht hs
    unfold orchestrateReply
    rw [if_neg hg, if_neg hc, if_pos ⟨ht, hs⟩]
  · intro hg hc ht hs
    unfold orchestrateReply
    rw [if_neg hg, if_neg hc,
        if_neg (by rintro ⟨-, h⟩; rw [hs] at h; exact Bool.false_ne_true h),
        if_pos ht]
  · intro hf
    unfold orchestrateReply
    rw [if_neg (by rintro ⟨rfl, -⟩; exact absurd hf (by decide)),
        if_neg (by rintro ⟨rfl, -⟩; exact absurd hf (by decide)),
        if_neg (by rintro ⟨h, -⟩; rw [hf] at h; exact Bool.false_ne_true h),
        if_neg (by rw [hf]; exact Bool.false_ne_true)]

/-- C4 witness: one concrete call per policy branch. -/
theorem orchestrator_policy_witness :
    orchestrateReply ⟨none, none⟩ providerFail ⟨none⟩ capsFail "hi" []
        (some "GREETING") (some "GREETING") = greetingMsg ∧
    orchestrateReply ⟨none, none⟩ providerFail ⟨none⟩ capsFail "thanks" []
        (some "CHITCHAT") (some "CHITCHAT") = chitchatMsg ∧
    orchestrateReply ⟨none, none⟩ providerFail ⟨none⟩ capsFail "q" []
        (some "Acme") (some "cloud")
      = (if (get_company_web_content ⟨none, none⟩ providerFail "Acme" "cloud").1 = []
         then noSpecificInfoMsg
         else (get_rag_answer ⟨none⟩ capsFail "q"
                (get_company_web_content ⟨none, none⟩ providerFail "Acme" "cloud").1 []).1) ∧
    orchestrateReply ⟨none, none⟩ providerFail ⟨none⟩ capsFail "q" []
        (some "Acme") none = clarifyMsg "Acme" ∧
    orchestrateReply ⟨none, none⟩ providerFail ⟨none⟩ capsFail "q" []
        none (some "cloud") = couldntIdentifyMsg :=
  ⟨(orchestrator_policy ⟨none, none⟩ providerFail ⟨none⟩ capsFail "hi" []
      (some "GREETING") (some "GREETING")).1 ⟨rfl, rfl⟩,
   (orchestrator_policy ⟨none, none⟩ providerFail ⟨none⟩ capsFail "thanks" []
      (some "CHITCHAT") (some "CHITCHAT")).2.1 ⟨rfl, rfl⟩,
   (orchestrator_policy ⟨none, none⟩ providerFail ⟨none⟩ capsFail "q" []
      (some "Acme") (some "cloud")).2.2.1 (by decide) (by decide) (by decide) (by decide),
   (orchestrator_policy ⟨none, none⟩ providerFail ⟨none⟩ capsFail "q" []
      (some "Acme") none).2.2.2.1 (by decide) (by decide) (by decide) (by decide),
   (orchestrator_policy ⟨none, none⟩ providerFail ⟨none⟩ capsFail "q" []
      none (some "cloud")).2.2.2.2 (by decide)⟩

/-- C10: the marker short-circuits fire only when both fields hold the
same marker: the mixed extraction ("GREETING", null) falls through and
yields the clarification prompt naming "GREETING" as the company; an
empty string is falsy, so an empty company with present keywords falls
to the could-not-identify reply and present company with empty
keywords falls to the clarification prompt. -/
theorem orchestrator_marker_truthiness (scfg : SearchConfig)
    (provider : SearchProvider) (rcfg : RagConfig) (caps : Caps)
    (userPrompt : String) (history : List ChatMessage) :
    orchestrateReply scfg provider rcfg caps userPrompt history
        (some "GREETING") none = clarifyMsg "GREETING" ∧
    truthy (some "") = false ∧
    orchestrateReply scfg provider rcfg caps userPrompt history
        (some "") (some "cloud") = couldntIdentifyMsg ∧
    orchestrateReply scfg provider rcfg caps userPrompt history
        (some "Acme") (some "") = clarifyMsg "Acme" := by
  refine ⟨?_, rfl, ?_, ?_⟩
  · unfold orchestrateReply
    rw [if_neg (by decide), if_neg (by decide), if_neg (by decide), if_pos (by decide)]
    rfl
  · unfold orchestrateReply
    rw [if_neg (by decide), if_neg (by decide), if_neg (by decide), if_neg (by decide)]
  · unfold orchestrateReply
    rw [if_neg (by decide), if_neg (by decide), if_neg (by decide), if_pos (by decide)]
    rfl

/-- C5: `extract_query_entities` makes exactly one (hence at most one,
with no retries) extraction-completion call per turn; a malformed-JSON
response yields `(none, none)` with one non-fatal warning surfaced and
no error; any fault of the completion call itself yields
`(none, none)` with one error surfaced and no warning. The embedded
function is total, so no exception propagates from it. -/
theorem extractor_fault_policy (chain : String → Except String String)
    (jsonLoads : String → Except String (List (String × Option String)))
    (query : String) :
    (extract_query_entities chain jsonLoads query).2.chainCalls = 1 ∧
    (∀ s e, chain query = .ok s → jsonLoads (stripFences s) = .error e →
       extract_query_entities chain jsonLoads query = ((none, none), ⟨1, 1, 0⟩)) ∧
    (∀ e, chain query = .error e →
       extract_query_entities chain jsonLoads query = ((none, none), ⟨1, 0, 1⟩)) := by
  refine ⟨?_, ?_, ?_⟩
  · cases hc : chain query with
    | error e => simp [extract_query_entities, hc]
    | ok s =>
        cases hj : jsonLoads (stripFences s) with
        | error e => simp [extract_query_entities, hc, hj]
        | ok ents => simp [extract_query_entities, hc, hj]
  · intro s e hcq hj
    simp [extract_query_entities, hcq, hj]
  · intro e hcq
    simp [extract_query_entities, hcq]

/-- C5 witness: a chain fault and a decode fault, each at a concrete
query, produce the documented `(none, none)` results and surfacings. -/
theorem extractor_fault_policy_witness :
    (extract_query_entities chainConst jsonLoadsFail "hi").2.chainCalls = 1 ∧
    extract_query_entities chainConst jsonLoadsFail "hi" = ((none, none), ⟨1, 1, 0⟩) ∧
    extract_query_entities chainFail jsonLoadsFail "hi" = ((none, none), ⟨1, 0, 1⟩) :=
  ⟨(extractor_fault_policy chainConst jsonLoadsFail "hi").1,
   (extractor_fault_policy chainConst jsonLoadsFail "hi").2.1 "not json" "decode" rfl rfl,
   (extractor_fault_policy chainFail jsonLoadsFail "hi").2.2 "rpc-fault" rfl⟩

end DCC
